import Mathlib

/-!
Verification of the data-access resilience layer of the Songblood
blood-inventory application: the query cache, the retry executor, the
database health monitor (src/lib/db-health.ts) and the query execution
facade `executeQuery` (the db module shipped alongside db-health.ts).

The cache (`cache.ts`), the retry executor (`retry-utils.ts`) and the
error helpers (`error-handling.ts`) are imported by the sources but their
files are not part of the repository snapshot; those definitions are
modelled from the specification and marked as such in their doc comments.
Everything else is translated directly from the TypeScript sources.

Time is modelled as a natural number of milliseconds (`Date.now()`).
JavaScript values that flow through the cache are modelled by `JsVal`,
with JavaScript truthiness made explicit, because the facade tests cached
values and query results with `if (cached)` / `if (cacheKey && result)`.
-/

namespace Songblood

/-- The closed error-kind enumeration of the error taxonomy
(`ErrorType` in error-handling.ts, enumerated in the spec). -/
inductive ErrorType where
  | DATABASE_CONNECTION
  | TIMEOUT
  | VALIDATION
  | NOT_FOUND
  | AUTHENTICATION
  | DATA_PROCESSING
  | SERVER
deriving DecidableEq, Repr

/-- Modelled from the spec: the default of the `retryable` flag when an
`AppError` is constructed without one — `CONNECTION` and `TIMEOUT` default
to retryable; `VALIDATION`, `NOT_FOUND`, `AUTHENTICATION` never are. -/
def ErrorType.defaultRetryable : ErrorType → Bool
  | .DATABASE_CONNECTION => true
  | .TIMEOUT => true
  | _ => false

/-- Modelled from the spec: the `AppError` object of error-handling.ts —
`{ kind, message, detail?, retryable }`. -/
structure AppError where
  type : ErrorType
  message : String
  details : Option String
  retryable : Bool
deriving DecidableEq, Repr

/-- Equality of `Except` values is decidable componentwise; used to
evaluate the model on concrete runs. -/
instance {ε α : Type} [DecidableEq ε] [DecidableEq α] : DecidableEq (Except ε α)
  | .ok a, .ok b => if h : a = b then isTrue (by rw [h]) else isFalse (by simp [h])
  | .ok _, .error _ => isFalse (by simp)
  | .error _, .ok _ => isFalse (by simp)
  | .error a, .error b => if h : a = b then isTrue (by rw [h]) else isFalse (by simp [h])

/-- A failure raised by a query operation: either an already classified
`AppError`, or a plain JavaScript `Error` carrying only a message. -/
inductive QueryError where
  | app (e : AppError)
  | js (message : String)
deriving DecidableEq, Repr

/-- The `message` property of the thrown value (`AppError` extends `Error`,
so both carry one). -/
def QueryError.message : QueryError → String
  | .app e => e.message
  | .js m => m

/-- Modelled from the spec: `logError` of error-handling.ts. Per the
propagation policy, an error propagates upward unchanged once classified;
an unrecognized failure passes through as a server-kind error and is
treated as non-retryable by default. -/
def logError : QueryError → AppError
  | .app e => e
  | .js m => ⟨ErrorType.SERVER, m, none, false⟩

/-- A JavaScript value as stored in the cache and returned by queries.
Arrays and objects are collapsed into `vobj`, identified by an opaque tag
(both are always truthy); numbers are modelled by integers. -/
inductive JsVal where
  | vnull
  | vundef
  | vbool (b : Bool)
  | vnum (n : Int)
  | vstr (s : String)
  | vobj (tag : Nat)
deriving DecidableEq, Repr

/-- JavaScript truthiness: `null`, `undefined`, `false`, `0` and `""` are
falsy, everything else is truthy. -/
def truthy : JsVal → Bool
  | .vnull => false
  | .vundef => false
  | .vbool b => b
  | .vnum n => n != 0
  | .vstr s => s != ""
  | .vobj _ => true

/-- A cache entry: the stored value and its absolute expiry time
(`expiresAt`), per the spec's data model. -/
structure CacheEntry where
  value : JsVal
  expiresAt : Nat
deriving DecidableEq, Repr

/-- The in-process query cache: an association list from keys to entries,
newest binding first. -/
abbrev Cache := List (String × CacheEntry)

/-- Look a key up in the cache map (ignoring expiry). -/
def Cache.lookup : Cache → String → Option CacheEntry
  | [], _ => none
  | e :: rest, k => if e.1 = k then some e.2 else Cache.lookup rest k

/-- Modelled from the spec: `queryCache.get` of cache.ts — returns absent
if the key was never set, was invalidated, or its TTL has elapsed (an
entry is never returned once past its `expiresAt`; the lazy eviction it
performs does not change any later `get`, so it is dropped here). -/
def Cache.get (c : Cache) (k : String) (now : Nat) : Option JsVal :=
  match Cache.lookup c k with
  | some e => if e.expiresAt < now then none else some e.value
  | none => none

/-- Modelled from the spec: `queryCache.set` of cache.ts — overwrites any
existing entry and starts the expiry clock from the call time. -/
def Cache.set (c : Cache) (k : String) (v : JsVal) (ttl : Nat) (now : Nat) : Cache :=
  (k, ⟨v, now + ttl⟩) :: c.filter (fun p => p.1 ≠ k)

/-- Modelled from the spec: `queryCache.invalidate` of cache.ts — removes
one entry; no-op if absent. -/
def Cache.invalidate (c : Cache) (k : String) : Cache :=
  c.filter (fun p => p.1 ≠ k)

/-- Whether `s` starts with `pre` (`String.prototype.startsWith`),
decided on the character lists. -/
def strStartsWith (s pre : String) : Bool :=
  List.isPrefixOf pre.data s.data

/-- Modelled from the spec: `queryCache.invalidateByPrefix` of cache.ts —
removes every entry whose key starts with `namespace:`. -/
def Cache.invalidateByPrefix (c : Cache) (ns : String) : Cache :=
  c.filter (fun p => !(strStartsWith p.1 (ns ++ ":")))

/-- Modelled from the spec: `queryCache.invalidateAll` of cache.ts —
empties the cache. -/
def Cache.invalidateAll (_ : Cache) : Cache := []

/-! ## Retry Executor (retry-utils.ts, modelled from the spec) -/

/-- Modelled from the spec: `RetryConfig` of retry-utils.ts —
`{ maxAttempts, baseDelayMs, backoffMultiplier, retryableCheck }`. The
multiplier is a float of the source, modelled by a rational. -/
structure RetryConfig (ε : Type) where
  maxAttempts : Nat
  baseDelayMs : Nat
  backoffMultiplier : ℚ
  retryableCheck : ε → Bool

/-- What one `withRetry` run produced: the propagated result, how many
times the operation was invoked, and the backoff delays waited between
attempts, in order. -/
structure RetryOutcome (ε α : Type) where
  result : Except ε α
  calls : Nat
  delays : List ℚ
deriving Repr

/-- Modelled from the spec: the loop of `withRetry` in retry-utils.ts.
The operation is indexed by the attempt counter (starting at 1). On
success return immediately; on failure propagate if `retryableCheck`
says no or the counter has reached `maxAttempts`, otherwise wait
`baseDelayMs * backoffMultiplier ^ (attempt - 1)` and re-attempt. `fuel`
bounds the recursion; `withRetry` supplies `maxAttempts`, which the
attempt counter can never outrun. -/
def withRetryGo (op : Nat → Except ε α) (cfg : RetryConfig ε) :
    (fuel attempt : Nat) → RetryOutcome ε α
  | 0, attempt =>
    match op attempt with
    | Except.ok v => ⟨Except.ok v, 1, []⟩
    | Except.error e => ⟨Except.error e, 1, []⟩
  | f + 1, attempt =>
    match op attempt with
    | Except.ok v => ⟨Except.ok v, 1, []⟩
    | Except.error e =>
      if cfg.retryableCheck e = false ∨ cfg.maxAttempts ≤ attempt then
        ⟨Except.error e, 1, []⟩
      else
        let d : ℚ := (cfg.baseDelayMs : ℚ) * cfg.backoffMultiplier ^ (attempt - 1)
        let rest := withRetryGo op cfg f (attempt + 1)
        ⟨rest.result, rest.calls + 1, d :: rest.delays⟩

/-- Modelled from the spec: `withRetry(operation, config)` of
retry-utils.ts — the attempt counter starts at 1. `withRetry` passes
`maxAttempts` as fuel; step 3 stops the loop strictly before the fuel can
run out, so the fuel-exhausted base case is unreachable from here. -/
def withRetry (op : Nat → Except ε α) (cfg : RetryConfig ε) : RetryOutcome ε α :=
  withRetryGo op cfg cfg.maxAttempts 1

/-! ## Database configuration (src/lib/db-config.ts) -/

/-- The shape of `DB_CONFIG` in src/lib/db-config.ts. -/
structure DbConfig where
  CONNECTION_TIMEOUT_MS : Nat
  QUERY_TIMEOUT_MS : Nat
  CONNECTION_POOL_SIZE : Nat
  MAX_BATCH_SIZE : Nat
  CACHE_TTL_MS : Nat
  RETRY_ATTEMPTS : Nat
  RETRY_DELAY_MS : Nat
  HEALTH_CHECK_INTERVAL_MS : Nat

/-- `DB_CONFIG` of src/lib/db-config.ts. -/
def DB_CONFIG : DbConfig :=
  { CONNECTION_TIMEOUT_MS := 10000
    QUERY_TIMEOUT_MS := 30000
    CONNECTION_POOL_SIZE := 10
    MAX_BATCH_SIZE := 1000
    CACHE_TTL_MS := 60000
    RETRY_ATTEMPTS := 3
    RETRY_DELAY_MS := 500
    HEALTH_CHECK_INTERVAL_MS := 300000 }

/-! ## Health Monitor (src/lib/db-health.ts) -/

/-- `DbHealthStatus` of src/lib/db-health.ts, time as milliseconds. -/
structure DbHealthStatus where
  isConnected : Bool
  lastChecked : Nat
  responseTimeMs : Option Nat
  error : Option String
deriving DecidableEq, Repr

/-- The initial module-level `dbHealthStatus` of src/lib/db-health.ts
(`new Date(0)` is the Unix epoch). -/
def initialDbHealthStatus : DbHealthStatus :=
  { isConnected := false
    lastChecked := 0
    responseTimeMs := none
    error := some "Health check not yet performed" }

/-- The environment one health probe runs in: whether preview mode is on,
the configured database URL, and how the raced round-trip query resolves —
`Except.ok latency`, or `Except.error` for a query failure or the
`"Database health check timed out"` rejection of the timeout race. -/
structure ProbeEnv where
  preview : Bool
  dbUrl : Option String
  probe : Except QueryError Nat

/-- The `try` block of `checkDbHealth` (src/lib/db-health.ts lines 40-70):
a missing database URL throws an `AppError` (retryable defaulted by the
three-argument constructor); otherwise the raced probe query decides. -/
def checkDbHealthTry (env : ProbeEnv) : Except QueryError Nat :=
  match env.dbUrl with
  | none => Except.error (QueryError.app
      ⟨ErrorType.DATABASE_CONNECTION, "Database URL not found",
        some "Check environment variables",
        ErrorType.defaultRetryable ErrorType.DATABASE_CONNECTION⟩)
  | some _ => env.probe

/-- `checkDbHealth` of src/lib/db-health.ts: in preview mode record a
connected status with zero latency; otherwise run the `try` block, and on
any failure catch it, classify it with `logError`, and record a
disconnected status carrying the classified message. The function always
returns a status — nothing escapes the `catch`. -/
def checkDbHealth (env : ProbeEnv) (now : Nat) : DbHealthStatus :=
  if env.preview then
    { isConnected := true, lastChecked := now, responseTimeMs := some 0, error := none }
  else
    match checkDbHealthTry env with
    | Except.ok rt =>
      { isConnected := true, lastChecked := now, responseTimeMs := some rt, error := none }
    | Except.error e =>
      { isConnected := false, lastChecked := now, responseTimeMs := none,
        error := some (logError e).message }

/-- The process-wide state the periodic monitor mutates: the module-level
`dbHealthStatus` global, plus a counter of `queryCache.invalidateAll()`
calls made by the interval callback. -/
structure MonitorState where
  health : DbHealthStatus
  invalidateAllCalls : Nat
deriving DecidableEq, Repr

/-- One tick of the interval set up by `startHealthChecks`
(src/lib/db-health.ts lines 97-107): `checkDbHealth()` runs — assigning
the module global `dbHealthStatus` before its promise resolves — and the
`.then` callback then reads `status.isConnected && !dbHealthStatus.isConnected`
against the already-updated global, calling `invalidateAll` when that
holds. -/
def monitorStep (g : MonitorState) (env : ProbeEnv) (now : Nat) : MonitorState :=
  let status := checkDbHealth env now
  let g1 : MonitorState := { g with health := status }
  if status.isConnected && !g1.health.isConnected then
    { g1 with invalidateAllCalls := g1.invalidateAllCalls + 1 }
  else g1

/-- The periodic monitor run over a schedule of probes: the interval fires
once per list element, unconditionally, whatever each probe produced. -/
def monitorRun (g : MonitorState) : List (ProbeEnv × Nat) → MonitorState
  | [] => g
  | (env, now) :: rest => monitorRun (monitorStep g env now) rest

/-- The status snapshots the monitor records along a schedule, one per
tick. -/
def monitorTrace (g : MonitorState) : List (ProbeEnv × Nat) → List DbHealthStatus
  | [] => []
  | (env, now) :: rest =>
    checkDbHealth env now :: monitorTrace (monitorStep g env now) rest

/-! ## Query Execution Facade (`executeQuery` of the db module) -/

/-- Whether `s` contains `pat` as a substring (`String.prototype.includes`
of the source): `splitOn` yields more than one piece exactly when the
pattern occurs. -/
def containsSubstr (s pat : String) : Bool :=
  (s.splitOn pat).length != 1

/-- The failure-enhancement wrapper inside `executeQuery` (db module lines
194-205): a thrown `Error` whose message contains "timeout" becomes a
retryable `TIMEOUT` `AppError`, one whose message contains "connection" a
retryable `DATABASE_CONNECTION` one, anything else passes through.
`AppError` extends `Error`, so both constructors carry a message. -/
def enhanceError (e : QueryError) : QueryError :=
  if containsSubstr e.message "timeout" then
    QueryError.app ⟨ErrorType.TIMEOUT, "Database query timed out", some e.message, true⟩
  else if containsSubstr e.message "connection" then
    QueryError.app
      ⟨ErrorType.DATABASE_CONNECTION, "Database connection error", some e.message, true⟩
  else e

/-- Modelled from the spec: the retry predicate of `DEFAULT_RETRY_CONFIG`
in retry-utils.ts — retry decisions are made on the typed `retryable`
flag; an unclassified failure is non-retryable by default. -/
def defaultRetryableCheck : QueryError → Bool
  | .app e => e.retryable
  | .js _ => false

/-- Modelled from the spec: `DEFAULT_RETRY_CONFIG` of retry-utils.ts —
3 attempts, 500 ms base delay. The spec leaves the default backoff
multiplier unstated; 2 is used here and no claim depends on it. -/
def DEFAULT_RETRY_CONFIG : RetryConfig QueryError :=
  ⟨3, 500, 2, defaultRetryableCheck⟩

/-- The options record of `executeQuery`; absent fields are `none`
(`critical` destructures to `false` when absent). -/
structure ExecOptions where
  cacheKey : Option String
  cacheTtl : Option Nat
  retryConfig : Option (RetryConfig QueryError)
  critical : Bool

/-- The module-level context one `executeQuery` call runs in: preview-mode
detection, whether `dbClient` was initialized (the database URL was
present at module load), the current health snapshot `getDbHealthStatus()`
returns, and `Date.now()`. -/
structure ExecEnv where
  previewMode : Bool
  dbClientAvailable : Bool
  health : DbHealthStatus
  now : Nat

/-- What one `executeQuery` call produced: the returned value or thrown
`AppError`, the cache as the call left it, how many times the caller's
operation ran, and whether the Retry Executor was entered at all. -/
structure ExecResult where
  result : Except AppError JsVal
  cache : Cache
  opCalls : Nat
  retryUsed : Bool

/-- The cache-hit check of `executeQuery` (db module lines 160-166):
`if (cacheKey)` then `if (cached)` — both JavaScript truthiness tests, so
an empty-string key and a falsy cached value both fall through to the
database path. -/
def cacheHit (cache : Cache) (key : Option String) (now : Nat) : Option JsVal :=
  match key with
  | none => none
  | some k =>
    if k = "" then none
    else
      match Cache.get cache k now with
      | some v => if truthy v then some v else none
      | none => none

/-- The critical-query health gate of `executeQuery` (db module lines
177-187): `!health.isConnected && health.lastChecked.getTime() > Date.now() - 60000`,
evaluated only when `critical` is set. The subtraction is over JavaScript
numbers, hence over integers here. -/
def healthGate (health : DbHealthStatus) (now : Nat) (critical : Bool) : Bool :=
  critical && !health.isConnected &&
    decide ((now : Int) - 60000 < (health.lastChecked : Int))

/-- JavaScript `a || b` over an optional string (`health.error ||
"Recent health check failed"`): an absent or empty string falls back. -/
def jsOrElse (s : Option String) (d : String) : String :=
  match s with
  | some m => if m = "" then d else m
  | none => d

/-- The `try` block of `executeQuery` (db module lines 189-217): the
operation through the Retry Executor with the failure-enhancement wrapper;
on success a cache write when `cacheKey` and the result are both truthy
(`if (cacheKey && result)`); an escaping failure is classified by
`logError` and rethrown. -/
def executeQueryRun (env : ExecEnv) (cache : Cache) (op : Nat → Except QueryError JsVal)
    (options : ExecOptions) : ExecResult :=
  let cacheTtl := options.cacheTtl.getD DB_CONFIG.CACHE_TTL_MS
  let retryConfig := options.retryConfig.getD DEFAULT_RETRY_CONFIG
  let r := withRetry (fun n => (op n).mapError enhanceError) retryConfig
  match r.result with
  | Except.ok v =>
    match options.cacheKey with
    | some k =>
      if k = "" then
        { result := Except.ok v, cache := cache, opCalls := r.calls, retryUsed := true }
      else if truthy v then
        { result := Except.ok v, cache := Cache.set cache k v cacheTtl env.now,
          opCalls := r.calls, retryUsed := true }
      else
        { result := Except.ok v, cache := cache, opCalls := r.calls, retryUsed := true }
    | none =>
      { result := Except.ok v, cache := cache, opCalls := r.calls, retryUsed := true }
  | Except.error e =>
    { result := Except.error (logError e), cache := cache,
      opCalls := r.calls, retryUsed := true }

/-- `executeQuery` of the db module (lines 144-218), with the caller's
`queryFn` modelled as an attempt-indexed operation. In order: preview-mode
rejection; cache-hit return; missing-client rejection; the critical health
gate; then the retry block `executeQueryRun`. -/
def executeQuery (env : ExecEnv) (cache : Cache) (op : Nat → Except QueryError JsVal)
    (options : ExecOptions) : ExecResult :=
  if env.previewMode then
    { result := Except.error
        ⟨ErrorType.SERVER, "Database queries cannot be executed in preview mode",
          some "Use mock data instead", ErrorType.defaultRetryable ErrorType.SERVER⟩
      cache := cache, opCalls := 0, retryUsed := false }
  else
    match cacheHit cache options.cacheKey env.now with
    | some v => { result := Except.ok v, cache := cache, opCalls := 0, retryUsed := false }
    | none =>
      if env.dbClientAvailable = false then
        { result := Except.error
            ⟨ErrorType.DATABASE_CONNECTION, "Database client not initialized",
              some "Database URL environment variable may be missing or invalid",
              ErrorType.defaultRetryable ErrorType.DATABASE_CONNECTION⟩
          cache := cache, opCalls := 0, retryUsed := false }
      else if healthGate env.health env.now options.critical then
        { result := Except.error
            ⟨ErrorType.DATABASE_CONNECTION, "Database is currently unavailable",
              some (jsOrElse env.health.error "Recent health check failed"),
              ErrorType.defaultRetryable ErrorType.DATABASE_CONNECTION⟩
          cache := cache, opCalls := 0, retryUsed := false }
      else
        executeQueryRun env cache op options

/-! ## Helper lemmas -/

/-- The retry loop invokes the operation at least once, whatever the
configuration. -/
theorem withRetryGo_calls_pos (op : Nat → Except ε α) (cfg : RetryConfig ε)
    (fuel attempt : Nat) : 1 ≤ (withRetryGo op cfg fuel attempt).calls := by
  cases fuel with
  | zero =>
    cases h : op attempt <;> simp [withRetryGo, h]
  | succ f =>
    cases h : op attempt with
    | ok v => simp [withRetryGo, h]
    | error e =>
      by_cases hc : cfg.retryableCheck e = false ∨ cfg.maxAttempts ≤ attempt
      · simp [withRetryGo, h, hc]
      · simp [withRetryGo, h, hc]

/-- The retry executor invokes the operation at least once. -/
theorem withRetry_calls_pos (op : Nat → Except ε α) (cfg : RetryConfig ε) :
    1 ≤ (withRetry op cfg).calls :=
  withRetryGo_calls_pos op cfg cfg.maxAttempts 1

/-- The error kind of a facade outcome, `none` on success. -/
def resultErrorType : Except AppError JsVal → Option ErrorType
  | .error e => some e.type
  | .ok _ => none

/-- The retry block always enters the Retry Executor, and reports exactly
the executor's invocation count. -/
theorem executeQueryRun_retry (env : ExecEnv) (cache : Cache)
    (op : Nat → Except QueryError JsVal) (options : ExecOptions) :
    (executeQueryRun env cache op options).opCalls =
      (withRetry (fun n => (op n).mapError enhanceError)
        (options.retryConfig.getD DEFAULT_RETRY_CONFIG)).calls ∧
    (executeQueryRun env cache op options).retryUsed = true := by
  unfold executeQueryRun
  cases hr : (withRetry (fun n => (op n).mapError enhanceError)
      (options.retryConfig.getD DEFAULT_RETRY_CONFIG)).result with
  | ok v =>
    cases hck : options.cacheKey with
    | none => simp [hr, hck]
    | some k =>
      by_cases hk : k = "" <;> by_cases ht : truthy v <;> simp [hr, hck, hk, ht]
  | error e => simp [hr]

/-- Looking a key up after a prefix invalidation: gone when the key
starts with the prefix, untouched otherwise. -/
theorem Cache.lookup_filterPre (c : Cache) (pre k : String) :
    Cache.lookup (c.filter fun p => !strStartsWith p.1 pre) k =
      if strStartsWith k pre then none else Cache.lookup c k := by
  induction c with
  | nil => cases h : strStartsWith k pre <;> simp [Cache.lookup, h]
  | cons e rest ih =>
    by_cases hek : e.1 = k
    · subst hek
      cases h : strStartsWith e.1 pre <;>
        simp [List.filter_cons, Cache.lookup, h, ih]
    · cases he : strStartsWith e.1 pre <;>
        simp [List.filter_cons, Cache.lookup, he, hek, ih]

/-- Every scheduled tick of the monitor produces a recorded snapshot: a
failing probe never stops the interval. -/
theorem monitorTrace_length (g : MonitorState) (ps : List (ProbeEnv × Nat)) :
    (monitorTrace g ps).length = ps.length := by
  induction ps generalizing g with
  | nil => rfl
  | cons p rest ih =>
    obtain ⟨env, now⟩ := p
    simp [monitorTrace, ih]

/-! ## Claim theorems -/

/-- C3: an operation failing on every attempt with an error the retry
predicate deems retryable, under `{maxAttempts := 3, baseDelayMs := 10,
backoffMultiplier := 2}`, is invoked exactly 3 times, the waits before the
re-attempts are `baseDelayMs * backoffMultiplier ^ (attempt - 1)` — 10 ms
then 20 ms — and the propagated error is the 3rd attempt's error, the
earlier ones being discarded. -/
theorem withRetry_exhaustion {ε α : Type} (e : Nat → ε) (check : ε → Bool)
    (h : ∀ n, check (e n) = true) :
    withRetry (fun n => (Except.error (e n) : Except ε α)) ⟨3, 10, 2, check⟩ =
      ⟨Except.error (e 3), 3, [10, 20]⟩ := by
  simp [withRetry, withRetryGo, h 1, h 2, h 3]
  norm_num

/-- C3 witness: the always-failing operation that raises its attempt
number, every error retryable. -/
theorem withRetry_exhaustion_witness :
    withRetry (fun n => (Except.error n : Except Nat Unit)) ⟨3, 10, 2, fun _ => true⟩ =
      ⟨Except.error 3, 3, [10, 20]⟩ :=
  withRetry_exhaustion (fun n => n) (fun _ => true) (fun _ => rfl)

/-- C7: an operation whose first failure the retry predicate deems
non-retryable is invoked exactly once and that failure propagates, with no
backoff wait, regardless of how large `maxAttempts` is. -/
theorem withRetry_nonRetryable {ε α : Type} (op : Nat → Except ε α)
    (cfg : RetryConfig ε) (e : ε) (hop : op 1 = Except.error e)
    (hcheck : cfg.retryableCheck e = false) :
    withRetry op cfg = ⟨Except.error e, 1, []⟩ := by
  cases hm : cfg.maxAttempts with
  | zero => simp [withRetry, hm, withRetryGo, hop]
  | succ m => simp [withRetry, hm, withRetryGo, hop, hcheck]

/-- C7 witness: a non-retryable failure under a one-million-attempt
budget still runs once. -/
theorem withRetry_nonRetryable_witness :
    withRetry (fun n => (Except.error n : Except Nat Unit))
        ⟨1000000, 10, 2, fun _ => false⟩ =
      ⟨Except.error 1, 1, []⟩ :=
  withRetry_nonRetryable _ _ 1 rfl rfl

/-- C6: a value stored with some TTL is returned by `get` (equal to the
stored value) at every time strictly before the TTL has elapsed since the
`set`, is absent at every time strictly after, and — the invariant — no
`get` ever returns an entry past its `expiresAt`. -/
theorem cache_ttl_expiry (c : Cache) (k : String) (v : JsVal) (ttl t0 t : Nat) :
    (t < t0 + ttl → Cache.get (Cache.set c k v ttl t0) k t = some v) ∧
    (t0 + ttl < t → Cache.get (Cache.set c k v ttl t0) k t = none) ∧
    (∀ (c2 : Cache) (w : JsVal), Cache.get c2 k t = some w →
      ∃ e, Cache.lookup c2 k = some e ∧ e.value = w ∧ t ≤ e.expiresAt) := by
  refine ⟨?_, ?_, ?_⟩
  · intro hlt
    simp [Cache.get, Cache.set, Cache.lookup, Nat.not_lt.mpr (Nat.le_of_lt hlt)]
  · intro hgt
    simp [Cache.get, Cache.set, Cache.lookup, hgt]
  · intro c2 w hw
    unfold Cache.get at hw
    cases hl : Cache.lookup c2 k with
    | none => rw [hl] at hw; simp at hw
    | some e =>
      rw [hl] at hw
      by_cases hexp : e.expiresAt < t
      · simp [hexp] at hw
      · simp [hexp] at hw
        exact ⟨e, rfl, hw, Nat.not_lt.mp hexp⟩

/-- C8: `invalidateByPrefix ns` makes `get` absent exactly on the keys
that start with `ns ++ ":"` and leaves `get` on every other key unchanged;
concretely, invalidating the prefix `"platelets"` removes `"platelets:1"`
and `"platelets:2"` but leaves `"plasma:1"` untouched. -/
theorem invalidateByPrefix_exact :
    (∀ (c : Cache) (ns k : String) (now : Nat),
      Cache.get (Cache.invalidateByPrefix c ns) k now =
        if strStartsWith k (ns ++ ":") then none else Cache.get c k now) ∧
    Cache.invalidateByPrefix
        [("platelets:1", ⟨JsVal.vnum 1, 100⟩), ("platelets:2", ⟨JsVal.vnum 2, 100⟩),
         ("plasma:1", ⟨JsVal.vnum 3, 100⟩)] "platelets" =
      [("plasma:1", ⟨JsVal.vnum 3, 100⟩)] := by
  constructor
  · intro c ns k now
    unfold Cache.get Cache.invalidateByPrefix
    rw [Cache.lookup_filterPre]
    by_cases hk : strStartsWith k (ns ++ ":") = true <;> simp [hk]
  · decide

/-- A probe that fails with a connection error. -/
def failingProbe : ProbeEnv :=
  ⟨false, some "postgres", Except.error (QueryError.js "connection refused")⟩

/-- A probe that succeeds with 5 ms latency. -/
def succeedingProbe : ProbeEnv :=
  ⟨false, some "postgres", Except.ok 5⟩

/-- A DISCONNECTED-then-CONNECTED probe schedule: the first probe fails
with a connection error, the second succeeds. -/
def recoverySchedule : List (ProbeEnv × Nat) :=
  [(failingProbe, 1), (succeedingProbe, 2)]

/-- C1: the interval callback of `startHealthChecks` reads the module
global `dbHealthStatus` only after `checkDbHealth` has already overwritten
it with the probe's own status, so `status.isConnected &&
!dbHealthStatus.isConnected` compares a snapshot with itself:
`invalidateAll` is never called, on no tick of any run — in particular not
once on the `recoverySchedule`, whose first probe records a disconnected
status and whose second records a connected one (a genuine
DISCONNECTED→CONNECTED transition). The claim's "exactly once at that
transition" therefore fails on the code. -/
theorem monitor_never_invalidates :
    (∀ (g : MonitorState) (env : ProbeEnv) (now : Nat),
      (monitorStep g env now).invalidateAllCalls = g.invalidateAllCalls) ∧
    (monitorStep ⟨initialDbHealthStatus, 0⟩ failingProbe 1).health.isConnected = false ∧
    (checkDbHealth succeedingProbe 2).isConnected = true ∧
    (monitorRun ⟨initialDbHealthStatus, 0⟩ recoverySchedule).invalidateAllCalls = 0 := by
  refine ⟨?_, by decide, by decide, by decide⟩
  intro g env now
  unfold monitorStep
  cases h : (checkDbHealth env now).isConnected <;> simp [h]

/-- C9: a probe failure never escapes `checkDbHealth` — whatever the
`try` block failed with (a missing database URL, a timeout, any query
error), the `catch` records and returns a snapshot with `isConnected`
false carrying the classified error message, stamped with the probe time;
and the periodic interval fires on every scheduled tick regardless
(one recorded snapshot per tick). -/
theorem checkDbHealth_failure_contained (env : ProbeEnv) (now : Nat) (e : QueryError)
    (hp : env.preview = false) (h : checkDbHealthTry env = Except.error e) :
    checkDbHealth env now =
      { isConnected := false, lastChecked := now, responseTimeMs := none,
        error := some (logError e).message } ∧
    (∀ g : MonitorState, (monitorStep g env now).health = checkDbHealth env now) ∧
    (∀ (g : MonitorState) (ps : List (ProbeEnv × Nat)),
      (monitorTrace g ps).length = ps.length) := by
  refine ⟨?_, fun g => ?_, fun g ps => monitorTrace_length g ps⟩
  · simp [checkDbHealth, hp, h]
  · unfold monitorStep
    cases hc : (checkDbHealth env now).isConnected <;> simp [hc]

/-- C2: a critical call with no cache hit while the health snapshot says
disconnected and was taken within the last 60 seconds fails fast with a
connection-kind error — the operation is never invoked and the Retry
Executor is never entered. (If the client is not even initialized the
rejection is also connection-kind, so no assumption on it is needed.) -/
theorem executeQuery_critical_gate (env : ExecEnv) (cache : Cache)
    (op : Nat → Except QueryError JsVal) (options : ExecOptions)
    (hprev : env.previewMode = false)
    (hmiss : cacheHit cache options.cacheKey env.now = none)
    (hcrit : options.critical = true)
    (hconn : env.health.isConnected = false)
    (hrecent : (env.now : Int) - 60000 < (env.health.lastChecked : Int)) :
    resultErrorType (executeQuery env cache op options).result =
      some ErrorType.DATABASE_CONNECTION ∧
    (executeQuery env cache op options).opCalls = 0 ∧
    (executeQuery env cache op options).retryUsed = false := by
  have hg : healthGate env.health env.now options.critical = true := by
    simp [healthGate, hcrit, hconn, hrecent]
  by_cases hdb : env.dbClientAvailable = false
  · simp [executeQuery, hprev, hmiss, hdb, resultErrorType]
  · simp [executeQuery, hprev, hmiss, hdb, hg, resultErrorType]

/-- The context of the C2 witness: disconnected 10 seconds before now. -/
def gateEnv : ExecEnv := ⟨false, true, ⟨false, 100000, none, some "down"⟩, 110000⟩

/-- An operation returning a fresh truthy value. -/
def freshOp : Nat → Except QueryError JsVal := fun _ => Except.ok (JsVal.vstr "fresh")

/-- Options supplying only a cache key, with `critical` set. -/
def criticalOptions : ExecOptions := ⟨some "k", none, none, true⟩

/-- C2 witness: `critical := true`, empty cache, health snapshot
`{isConnected := false, lastChecked := now - 10000}`. -/
theorem executeQuery_critical_gate_witness :
    resultErrorType (executeQuery gateEnv [] freshOp criticalOptions).result =
      some ErrorType.DATABASE_CONNECTION ∧
    (executeQuery gateEnv [] freshOp criticalOptions).opCalls = 0 ∧
    (executeQuery gateEnv [] freshOp criticalOptions).retryUsed = false :=
  executeQuery_critical_gate gateEnv [] freshOp criticalOptions rfl rfl rfl rfl
    (by decide)

/-- A plain context: preview off, client initialized, health connected,
`Date.now() = 500`. -/
def plainEnv : ExecEnv := ⟨false, true, ⟨true, 0, some 1, none⟩, 500⟩

/-- A cache whose entry under `"k"` is live (expires at 1000) but holds
the falsy value 0. -/
def falsyHitCache : Cache := [("k", ⟨JsVal.vnum 0, 1000⟩)]

/-- Options supplying only the cache key `"k"`. -/
def keyOnlyOptions : ExecOptions := ⟨some "k", none, none, false⟩

/-- C4 counterexample: the entry under the supplied key `"k"` is live at
`now = 500` (a cache hit per the claim's reading), yet `executeQuery` does
not return the cached value `0`: it invokes the operation once and returns
the operation's result, because the hit test `if (cached)` is truthiness,
not presence. -/
theorem executeQuery_live_hit_counterexample :
    Cache.get falsyHitCache "k" plainEnv.now = some (JsVal.vnum 0) ∧
    ¬ ((executeQuery plainEnv falsyHitCache freshOp keyOnlyOptions).result =
          Except.ok (JsVal.vnum 0) ∧
        (executeQuery plainEnv falsyHitCache freshOp keyOnlyOptions).opCalls = 0) ∧
    (executeQuery plainEnv falsyHitCache freshOp keyOnlyOptions).opCalls = 1 ∧
    (executeQuery plainEnv falsyHitCache freshOp keyOnlyOptions).result =
      Except.ok (JsVal.vstr "fresh") := by
  decide

/-- C4 (amended): a cache hit — a live entry under the supplied key whose
value is truthy — makes `executeQuery` return the cached value with
neither the Retry Executor nor the operation invoked, the cache left
unchanged. -/
theorem executeQuery_cache_hit (env : ExecEnv) (cache : Cache)
    (op : Nat → Except QueryError JsVal) (options : ExecOptions)
    (k : String) (v : JsVal)
    (hprev : env.previewMode = false)
    (hkey : options.cacheKey = some k) (hk : ¬ k = "")
    (hget : Cache.get cache k env.now = some v) (htruthy : truthy v = true) :
    executeQuery env cache op options =
      { result := Except.ok v, cache := cache, opCalls := 0, retryUsed := false } := by
  have hhit : cacheHit cache options.cacheKey env.now = some v := by
    simp [cacheHit, hkey, hk, hget, htruthy]
  simp [executeQuery, hprev, hhit]

/-- A cache whose entry under `"k"` is live and truthy. -/
def truthyHitCache : Cache := [("k", ⟨JsVal.vnum 7, 1000⟩)]

/-- C4 witness: a live truthy entry is returned as-is, zero operation
invocations. -/
theorem executeQuery_cache_hit_witness :
    executeQuery plainEnv truthyHitCache freshOp keyOnlyOptions =
      { result := Except.ok (JsVal.vnum 7), cache := truthyHitCache,
        opCalls := 0, retryUsed := false } :=
  executeQuery_cache_hit plainEnv truthyHitCache freshOp keyOnlyOptions "k"
    (JsVal.vnum 7) rfl rfl (by decide) (by decide) rfl

/-- An operation returning the falsy value 0. -/
def zeroOp : Nat → Except QueryError JsVal := fun _ => Except.ok (JsVal.vnum 0)

/-- C5 counterexample: a cache key is supplied and the operation succeeds
with the (falsy) result 0, yet nothing is written to the cache — the write
is guarded by `if (cacheKey && result)`, and `result` is falsy. -/
theorem executeQuery_cache_write_counterexample :
    (executeQuery plainEnv [] zeroOp keyOnlyOptions).result =
      Except.ok (JsVal.vnum 0) ∧
    (executeQuery plainEnv [] zeroOp keyOnlyOptions).cache = [] ∧
    Cache.get (executeQuery plainEnv [] zeroOp keyOnlyOptions).cache "k"
      plainEnv.now = none := by
  decide

/-- C5 (amended): when a (nonempty) cache key is supplied, the call
reaches the database path, and the operation succeeds with a truthy result
`v`, `executeQuery` writes `v` under that key with the configured TTL —
`options.cacheTtl` when given, otherwise the 60000 ms `DB_CONFIG` default —
expiring at `now + ttl`, and returns `v`. -/
theorem executeQuery_cache_write (env : ExecEnv) (cache : Cache)
    (op : Nat → Except QueryError JsVal) (options : ExecOptions)
    (k : String) (v : JsVal)
    (hprev : env.previewMode = false)
    (hkey : options.cacheKey = some k) (hk : ¬ k = "")
    (hmiss : cacheHit cache options.cacheKey env.now = none)
    (hdb : env.dbClientAvailable = true)
    (hgate : healthGate env.health env.now options.critical = false)
    (hok : (withRetry (fun n => (op n).mapError enhanceError)
        (options.retryConfig.getD DEFAULT_RETRY_CONFIG)).result = Except.ok v)
    (htruthy : truthy v = true) :
    (executeQuery env cache op options).result = Except.ok v ∧
    (executeQuery env cache op options).cache =
      Cache.set cache k v (options.cacheTtl.getD DB_CONFIG.CACHE_TTL_MS) env.now ∧
    Cache.lookup (executeQuery env cache op options).cache k =
      some ⟨v, env.now + options.cacheTtl.getD DB_CONFIG.CACHE_TTL_MS⟩ := by
  have hrun : executeQuery env cache op options = executeQueryRun env cache op options := by
    simp [executeQuery, hprev, hmiss, hdb, hgate]
  rw [hrun]
  simp only [executeQueryRun, hok, hkey]
  simp [hk, htruthy, Cache.set, Cache.lookup]

/-- Options with the cache key `"k"` and an explicit 5000 ms TTL. -/
def ttlOptions : ExecOptions := ⟨some "k", some 5000, none, false⟩

/-- C5 witness: a truthy result is written under `"k"` expiring at
`now + 5000`. -/
theorem executeQuery_cache_write_witness :
    (executeQuery plainEnv [] freshOp ttlOptions).result =
      Except.ok (JsVal.vstr "fresh") ∧
    (executeQuery plainEnv [] freshOp ttlOptions).cache =
      Cache.set [] "k" (JsVal.vstr "fresh") 5000 500 ∧
    Cache.lookup (executeQuery plainEnv [] freshOp ttlOptions).cache "k" =
      some ⟨JsVal.vstr "fresh", 500 + 5000⟩ :=
  executeQuery_cache_write plainEnv [] freshOp ttlOptions "k" (JsVal.vstr "fresh")
    rfl rfl (by decide) rfl rfl rfl (by decide) (by decide)

/-- C10: truthiness, not presence, decides both cache reads and cache
writes in `executeQuery`. A live entry holding a falsy value is not a hit,
so the call proceeds to the database path — where the operation is always
invoked (at least once) through the Retry Executor; and a successful but
falsy result is never written back, even with a cache key supplied. -/
theorem executeQuery_truthy_semantics :
    (∀ (cache : Cache) (k : String) (now : Nat) (v0 : JsVal),
      Cache.get cache k now = some v0 → truthy v0 = false →
      cacheHit cache (some k) now = none) ∧
    (∀ (env : ExecEnv) (cache : Cache) (op : Nat → Except QueryError JsVal)
        (options : ExecOptions) (v : JsVal),
      env.previewMode = false →
      cacheHit cache options.cacheKey env.now = none →
      env.dbClientAvailable = true →
      healthGate env.health env.now options.critical = false →
      (withRetry (fun n => (op n).mapError enhanceError)
          (options.retryConfig.getD DEFAULT_RETRY_CONFIG)).result = Except.ok v →
      truthy v = false →
      (executeQuery env cache op options).cache = cache ∧
      (executeQuery env cache op options).result = Except.ok v) ∧
    (∀ (env : ExecEnv) (cache : Cache) (op : Nat → Except QueryError JsVal)
        (options : ExecOptions),
      env.previewMode = false →
      cacheHit cache options.cacheKey env.now = none →
      env.dbClientAvailable = true →
      healthGate env.health env.now options.critical = false →
      1 ≤ (executeQuery env cache op options).opCalls ∧
      (executeQuery env cache op options).retryUsed = true) := by
  refine ⟨?_, ?_, ?_⟩
  · intro cache k now v0 hget htruthy
    by_cases hk : k = "" <;> simp [cacheHit, hk, hget, htruthy]
  · intro env cache op options v hprev hmiss hdb hgate hok htruthy
    have hrun : executeQuery env cache op options = executeQueryRun env cache op options := by
      simp [executeQuery, hprev, hmiss, hdb, hgate]
    rw [hrun]
    cases hck : options.cacheKey with
    | none => simp [executeQueryRun, hok, hck]
    | some k =>
      by_cases hk : k = "" <;> simp [executeQueryRun, hok, hck, hk, htruthy]
  · intro env cache op options hprev hmiss hdb hgate
    have hrun : executeQuery env cache op options = executeQueryRun env cache op options := by
      simp [executeQuery, hprev, hmiss, hdb, hgate]
    rw [hrun]
    rcases executeQueryRun_retry env cache op options with ⟨h1, h2⟩
    refine ⟨?_, h2⟩
    rw [h1]
    exact withRetry_calls_pos _ _

/-- C9 witness: a probe with the database URL missing — the thrown
`AppError` is caught and recorded, not propagated. -/
theorem checkDbHealth_failure_contained_witness :
    checkDbHealth ⟨false, none, Except.ok 0⟩ 7 =
      { isConnected := false, lastChecked := 7, responseTimeMs := none,
        error := some "Database URL not found" } ∧
    (∀ g : MonitorState,
      (monitorStep g ⟨false, none, Except.ok 0⟩ 7).health =
        checkDbHealth ⟨false, none, Except.ok 0⟩ 7) ∧
    (∀ (g : MonitorState) (ps : List (ProbeEnv × Nat)),
      (monitorTrace g ps).length = ps.length) :=
  checkDbHealth_failure_contained ⟨false, none, Except.ok 0⟩ 7
    (QueryError.app
      ⟨ErrorType.DATABASE_CONNECTION, "Database URL not found",
        some "Check environment variables",
        ErrorType.defaultRetryable ErrorType.DATABASE_CONNECTION⟩)
    rfl rfl

end Songblood
